import Mathlib

/-!
Shallow embedding of `src/qbraid/extension.js` (a VS Code chat extension).

The extension keeps a single module-level variable `currentPanel`, registers
the `qbraid-chat.openChat` command, and routes webview messages to two
asynchronous handlers, `handleApiKeyValidation` and `handleChatRequest`,
which talk to the two REST endpoints of the qBraid chat service.  The
webview script carries an input listener gating the API-key format and a
`sendPrompt` function forwarding prompts to the host.

Handlers are embedded as pure functions from their inputs (arguments,
configuration, and the outcome the HTTP layer returns) to an explicit
record of their observable effects: HTTP requests issued, messages posted
to the webview, and configuration writes.
-/

/-- State of the extension host relevant to the panel lifecycle:
`currentPanel` is the module-level `let currentPanel = undefined` of
`extension.js` (a panel handle or `undefined`), and `nextId` supplies a
fresh identity for each panel `createWebviewPanel` makes. -/
structure PanelState where
  currentPanel : Option Nat
  nextId : Nat
deriving DecidableEq

/-- Observable outcome of running the `qbraid-chat.openChat` command:
either the existing panel was revealed (`currentPanel.reveal`) or a new
panel was created (`createWebviewPanel`). -/
inductive OpenAction where
  | revealed (id : Nat)
  | created (id : Nat)
deriving DecidableEq

/-- The `qbraid-chat.openChat` command callback registered in `activate`
(extension.js lines 12-18): if `currentPanel` is defined it is revealed,
otherwise `createWebviewPanel` assigns a fresh panel to `currentPanel`. -/
def openChat (s : PanelState) : PanelState × OpenAction :=
  match s.currentPanel with
  | some p => (s, OpenAction.revealed p)
  | none => (⟨some s.nextId, s.nextId + 1⟩, OpenAction.created s.nextId)

/-- The `onDidDispose` callback registered in `createWebviewPanel`
(extension.js lines 64-70): when the panel is disposed, `currentPanel`
is reset to `undefined`. -/
def onDidDispose (s : PanelState) : PanelState :=
  { s with currentPanel := none }

/-- Observable outcome of `deactivate`: either the current panel was
disposed or nothing happened. -/
inductive DeactivateAction where
  | disposed (id : Nat)
  | noop
deriving DecidableEq

/-- The `deactivate` function (extension.js lines 290-294): if a panel is
current it is disposed (which fires `onDidDispose`, resetting
`currentPanel`), otherwise nothing happens. -/
def deactivate (s : PanelState) : PanelState × DeactivateAction :=
  match s.currentPanel with
  | some p => (onDidDispose s, DeactivateAction.disposed p)
  | none => (s, DeactivateAction.noop)

/-- C1: at most one chat panel is live at any time.  When `openChat` runs
with a panel already current (`currentPanel` defined), the existing panel
is revealed and the state is unchanged (no panel is created); a new panel
is created only when `currentPanel` is `undefined`. -/
theorem openChat_at_most_one_panel (s : PanelState) :
    (∀ p, s.currentPanel = some p → openChat s = (s, OpenAction.revealed p)) ∧
    (s.currentPanel = none →
      (openChat s).snd = OpenAction.created s.nextId ∧
      (openChat s).fst.currentPanel = some s.nextId) := by
  constructor
  · intro p hp
    simp [openChat, hp]
  · intro h
    simp [openChat, h]

/-- Witness for C1 at concrete states: a state holding panel 0 is revealed
unchanged, and the empty state creates panel 0. -/
theorem openChat_at_most_one_panel_witness :
    openChat ⟨some 0, 1⟩ = (⟨some 0, 1⟩, OpenAction.revealed 0) ∧
    (openChat ⟨none, 0⟩).snd = OpenAction.created 0 :=
  ⟨(openChat_at_most_one_panel ⟨some 0, 1⟩).1 0 rfl,
   ((openChat_at_most_one_panel ⟨none, 0⟩).2 rfl).1⟩

/-- C10: panel lifecycle reset.  Disposing the panel resets `currentPanel`
to `undefined`, so a subsequent `openChat` creates a fresh panel rather
than revealing a stale one; `deactivate` disposes the current panel when
one exists and is a no-op otherwise. -/
theorem panel_lifecycle_reset (s : PanelState) :
    (onDidDispose s).currentPanel = none ∧
    (openChat (onDidDispose s)).snd = OpenAction.created s.nextId ∧
    (∀ p, s.currentPanel = some p →
      deactivate s = (onDidDispose s, DeactivateAction.disposed p) ∧
      (deactivate s).fst.currentPanel = none) ∧
    (s.currentPanel = none → deactivate s = (s, DeactivateAction.noop)) := by
  refine ⟨rfl, rfl, ?_, ?_⟩
  · intro p hp
    simp [deactivate, hp, onDidDispose]
  · intro h
    simp [deactivate, h]

/-- Witness for C10 at concrete states: disposing a state holding panel 3
clears it, and `deactivate` is a no-op on the empty state. -/
theorem panel_lifecycle_reset_witness :
    (onDidDispose ⟨some 3, 4⟩).currentPanel = none ∧
    deactivate (⟨some 3, 4⟩ : PanelState)
      = (onDidDispose ⟨some 3, 4⟩, DeactivateAction.disposed 3) ∧
    deactivate (⟨none, 4⟩ : PanelState) = (⟨none, 4⟩, DeactivateAction.noop) :=
  ⟨(panel_lifecycle_reset ⟨some 3, 4⟩).1,
   (((panel_lifecycle_reset ⟨some 3, 4⟩).2.2.1 3 rfl)).1,
   (panel_lifecycle_reset ⟨none, 4⟩).2.2.2 rfl⟩

/-- An HTTP request as the extension issues one through axios: both call
sites send an `api-key` header; the chat POST additionally sends a
`Content-Type` header and a JSON body `{ prompt }`, embedded as the
optional `promptBody` field (the body object has no other field). -/
structure HttpRequest where
  method : String
  url : String
  apiKeyHeader : String
  contentType : Option String
  promptBody : Option String
deriving DecidableEq

/-- Outcome the HTTP layer hands a handler: the promise resolved with a
status and parsed body of type `α`, or it threw, carrying
`error.response?.data` when the server answered (`none` for a network
failure with no response). -/
inductive HttpOutcome (α : Type) where
  | success (status : Nat) (data : α)
  | failure (errData : Option String)
deriving DecidableEq

/-- One element of the JSON array the models endpoint returns; the handler
reads only its `model` field, the remaining fields are kept opaquely. -/
structure ModelEntry where
  model : String
  extra : List (String × String)
deriving DecidableEq

/-- Parsed body of a chat-endpoint response; the handler reads only the
`content` field, the remaining fields are kept opaquely. -/
structure ChatResponseBody where
  content : String
  extra : List (String × String)
deriving DecidableEq

/-- A message the host posts to the webview via `panel.webview.postMessage`. -/
inductive HostMsg where
  | apiKeyValidated (models : List String)
  | chatResponse (content : String)
  | error (message : String)
deriving DecidableEq

/-- Observable effects of one handler run: HTTP requests issued (or
attempted), messages posted to the webview, and configuration writes
(`getConfiguration().update(key, value, true)` calls), each in order. -/
structure Effects where
  requests : List HttpRequest
  posted : List HostMsg
  configWrites : List (String × String)
deriving DecidableEq

/-- URL of the model-discovery endpoint. -/
def modelsUrl : String := "https://api.qbraid.com/api/chat/models"

/-- URL of the chat endpoint. -/
def chatUrl : String := "https://api.qbraid.com/api/chat"

/-- JavaScript `x || fallback` for a string-or-undefined `x`: the fallback
is taken when `x` is `undefined` or the empty string (falsy). -/
def jsOrElse (x : Option String) (fallback : String) : String :=
  match x with
  | some s => if s = "" then fallback else s
  | none => fallback

/-- The `handleApiKeyValidation` function (extension.js lines 74-98).
It returns early when `panel` is falsy; otherwise it GETs the models
endpoint with the `api-key` header.  On a resolved status-200 response it
posts `apiKeyValidated` carrying `response.data.map(model => model.model)`
and then persists the key under `qbraidChat.apiKey`; on any other resolved
status it does nothing further; when the request throws it posts an
`error` message carrying `error.response?.data || 'Failed to validate API
key'`. -/
def handleApiKeyValidation (apiKey : String) (panelPresent : Bool)
    (outcome : HttpOutcome (List ModelEntry)) : Effects :=
  if !panelPresent then ⟨[], [], []⟩
  else
    let req : HttpRequest := ⟨"GET", modelsUrl, apiKey, none, none⟩
    match outcome with
    | HttpOutcome.success status data =>
        if status = 200 then
          ⟨[req],
           [HostMsg.apiKeyValidated (data.map ModelEntry.model)],
           [("qbraidChat.apiKey", apiKey)]⟩
        else ⟨[req], [], []⟩
    | HttpOutcome.failure errData =>
        ⟨[req],
         [HostMsg.error (jsOrElse errData "Failed to validate API key")],
         []⟩

/-- The `handleChatRequest` function (extension.js lines 100-132).
It returns early when `panel` is falsy; it reads `qbraidChat.apiKey` from
configuration and, when that value is falsy (`undefined` or empty), posts
the key-not-found error and issues no request; otherwise it POSTs
`{ prompt }` to the chat endpoint with the stored key in the `api-key`
header.  On a resolved status-200 response it posts `chatResponse`
carrying `response.data.content`; on any other resolved status it does
nothing further; when the request throws it posts an `error` message
carrying `error.response?.data || 'Failed to get chat response'`. -/
def handleChatRequest (prompt : String) (panelPresent : Bool)
    (storedKey : Option String)
    (outcome : HttpOutcome ChatResponseBody) : Effects :=
  if !panelPresent then ⟨[], [], []⟩
  else if storedKey = none ∨ storedKey = some "" then
    ⟨[], [HostMsg.error "API key not found. Please enter your API key."], []⟩
  else
    let req : HttpRequest :=
      ⟨"POST", chatUrl, storedKey.getD "", some "application/json", some prompt⟩
    match outcome with
    | HttpOutcome.success status body =>
        if status = 200 then ⟨[req], [HostMsg.chatResponse body.content], []⟩
        else ⟨[req], [], []⟩
    | HttpOutcome.failure errData =>
        ⟨[req],
         [HostMsg.error (jsOrElse errData "Failed to get chat response")],
         []⟩

/-- Whitespace per ECMA-262 (`WhiteSpace` and `LineTerminator`), the set
`String.prototype.trim` removes: tab through carriage return, space,
no-break space, the Unicode space separators, the line separators, and
the BOM. -/
def isJsSpace (c : Char) : Bool :=
  (decide (9 ≤ c.toNat) && decide (c.toNat ≤ 13)) ||
  decide (c.toNat = 32) || decide (c.toNat = 160) || decide (c.toNat = 5760) ||
  (decide (8192 ≤ c.toNat) && decide (c.toNat ≤ 8202)) ||
  decide (c.toNat = 8232) || decide (c.toNat = 8233) ||
  decide (c.toNat = 8239) || decide (c.toNat = 8287) ||
  decide (c.toNat = 12288) || decide (c.toNat = 65279)

/-- JavaScript `String.prototype.trim`: drop leading and trailing
whitespace. -/
def jsTrim (s : String) : String :=
  String.mk (((s.toList.dropWhile isJsSpace).reverse.dropWhile isJsSpace).reverse)

/-- Character class `[a-z0-9]` of the webview's API-key regex. -/
def isLowerAlnumChar (c : Char) : Bool :=
  (decide (97 ≤ c.toNat) && decide (c.toNat ≤ 122)) ||
  (decide (48 ≤ c.toNat) && decide (c.toNat ≤ 57))

/-- The test `/^[a-z0-9]+$/.test(key)` of the webview script: the whole
string is one or more characters from `[a-z0-9]`. -/
def regexLowerAlnumPlus (s : String) : Bool :=
  decide (s.toList ≠ []) && s.toList.all isLowerAlnumChar

/-- What the API-key input listener does on one input event: either it
sets the status line and posts `validateApiKey` with the key, or it sets
the status line to an error and posts nothing. -/
inductive KeyInputAction where
  | validateSent (key : String) (statusText : String)
  | formatError (statusText : String)
deriving DecidableEq

/-- The `input` listener on the `apiKey` field in the webview script
(extension.js lines 221-236): it trims the field value; when the trimmed
key has length 30 and matches `/^[a-z0-9]+$/` it shows `Validating API
key...` and posts `validateApiKey` with the key, otherwise it shows the
format-error status and posts nothing. -/
def apiKeyInputListener (value : String) : KeyInputAction :=
  let key := jsTrim value
  if key.length = 30 && regexLowerAlnumPlus key then
    KeyInputAction.validateSent key "Validating API key..."
  else
    KeyInputAction.formatError
      "API key must be 30 characters long and contain only lowercase letters and numbers"

/-- Whether a key-input action posted a `validateApiKey` message. -/
def postsValidate : KeyInputAction → Bool
  | KeyInputAction.validateSent _ _ => true
  | KeyInputAction.formatError _ => false

/-- The message the webview posts to the host: `validateApiKey` carries
only the key, `sendChat` carries only the prompt. -/
inductive WebviewMsg where
  | validateApiKey (apiKey : String)
  | sendChat (prompt : String)
  | other (command : String)
deriving DecidableEq

/-- The `sendPrompt` function of the webview script (extension.js lines
238-248): it trims the prompt field and returns without posting when the
trimmed prompt is empty, otherwise it posts `sendChat` carrying the
prompt.  The `modelSelect` dropdown value is part of the panel state but
is never read by `sendPrompt`. -/
def sendPrompt (promptInput : String) (modelSelect : String) : Option WebviewMsg :=
  let prompt := jsTrim promptInput
  if prompt = "" then none
  else some (WebviewMsg.sendChat prompt)

/-- C2: the webview posts `validateApiKey` if and only if the trimmed
input has exactly 30 characters, all lowercase letters or digits; in that
case the posted key is the trimmed input, and otherwise the status line
shows the format error and no message is posted. -/
theorem apiKey_format_gate (value : String) :
    (postsValidate (apiKeyInputListener value) = true ↔
      ((jsTrim value).length = 30 ∧
        ∀ c ∈ (jsTrim value).toList, isLowerAlnumChar c = true)) ∧
    ((jsTrim value).length = 30 →
      (∀ c ∈ (jsTrim value).toList, isLowerAlnumChar c = true) →
      apiKeyInputListener value
        = KeyInputAction.validateSent (jsTrim value) "Validating API key...") ∧
    (¬ ((jsTrim value).length = 30 ∧
        ∀ c ∈ (jsTrim value).toList, isLowerAlnumChar c = true) →
      apiKeyInputListener value
        = KeyInputAction.formatError
            "API key must be 30 characters long and contain only lowercase letters and numbers") := by
  have hne : (jsTrim value).length = 30 → (jsTrim value).toList ≠ [] := by
    intro h30 hnil
    have hl : (jsTrim value).toList.length = 30 := h30
    rw [hnil] at hl
    simp at hl
  have hiff : (decide ((jsTrim value).length = 30)
        && regexLowerAlnumPlus (jsTrim value)) = true ↔
      ((jsTrim value).length = 30 ∧
        ∀ c ∈ (jsTrim value).toList, isLowerAlnumChar c = true) := by
    constructor
    · intro h
      simp only [Bool.and_eq_true, decide_eq_true_eq] at h
      refine ⟨h.1, ?_⟩
      have h2 := h.2
      simp only [regexLowerAlnumPlus, Bool.and_eq_true, decide_eq_true_eq,
        List.all_eq_true] at h2
      exact h2.2
    · intro h
      simp only [Bool.and_eq_true, decide_eq_true_eq]
      refine ⟨h.1, ?_⟩
      simp only [regexLowerAlnumPlus, Bool.and_eq_true, decide_eq_true_eq,
        List.all_eq_true]
      exact ⟨hne h.1, h.2⟩
  cases hb : (decide ((jsTrim value).length = 30)
      && regexLowerAlnumPlus (jsTrim value)) with
  | true =>
    have hp := hiff.mp hb
    have hrun : apiKeyInputListener value
        = KeyInputAction.validateSent (jsTrim value) "Validating API key..." := by
      simp [apiKeyInputListener, hb]
    refine ⟨?_, ?_, ?_⟩
    · constructor
      · intro _
        exact hp
      · intro _
        rw [hrun]
        rfl
    · intro _ _
      exact hrun
    · intro hnot
      exact absurd hp hnot
  | false =>
    have hnp : ¬ ((jsTrim value).length = 30 ∧
        ∀ c ∈ (jsTrim value).toList, isLowerAlnumChar c = true) := by
      intro h
      have hc := hiff.mpr h
      rw [hb] at hc
      exact Bool.noConfusion hc
    have hrun : apiKeyInputListener value
        = KeyInputAction.formatError
            "API key must be 30 characters long and contain only lowercase letters and numbers" := by
      simp [apiKeyInputListener, hb]
    refine ⟨?_, ?_, ?_⟩
    · constructor
      · intro hpost
        rw [hrun] at hpost
        exact Bool.noConfusion hpost
      · intro h
        exact absurd h hnp
    · intro h30 hall
      exact absurd ⟨h30, hall⟩ hnp
    · intro _
      exact hrun

/-- Witness for C2 at a concrete input: a 30-character lowercase
alphanumeric string posts `validateApiKey` and a shorter one does not. -/
theorem apiKey_format_gate_witness :
    apiKeyInputListener "abcdefghij0123456789abcdefghij"
      = KeyInputAction.validateSent "abcdefghij0123456789abcdefghij"
          "Validating API key..." ∧
    apiKeyInputListener "short"
      = KeyInputAction.formatError
          "API key must be 30 characters long and contain only lowercase letters and numbers" :=
  ⟨by
    have h := (apiKey_format_gate "abcdefghij0123456789abcdefghij").2.1
      (by decide) (by decide)
    simpa using h,
   by
    have h := (apiKey_format_gate "short").2.2 (by decide)
    simpa using h⟩

/-- C3: model discovery.  On a status-200 response from the models
endpoint, the list posted in `apiKeyValidated` is exactly the `model`
field of each element of the response array, in response order. -/
theorem model_discovery_list (apiKey : String) (data : List ModelEntry) :
    (handleApiKeyValidation apiKey true (HttpOutcome.success 200 data)).posted
      = [HostMsg.apiKeyValidated (data.map ModelEntry.model)] := by
  simp [handleApiKeyValidation]

/-- C4: prompt forwarding.  With a non-empty stored key, handling a
`sendChat` message issues exactly one POST to the chat endpoint whose body
carries the prompt and whose headers carry the stored key, and on a
status-200 response posts exactly one `chatResponse` carrying the response
body's `content` field. -/
theorem prompt_forwarding (prompt apiKey : String) (body : ChatResponseBody)
    (hk : apiKey ≠ "") :
    (handleChatRequest prompt true (some apiKey)
        (HttpOutcome.success 200 body)).requests
      = [⟨"POST", chatUrl, apiKey, some "application/json", some prompt⟩] ∧
    (handleChatRequest prompt true (some apiKey)
        (HttpOutcome.success 200 body)).posted
      = [HostMsg.chatResponse body.content] := by
  constructor <;> simp [handleChatRequest, hk]

/-- Witness for C4 at a concrete prompt, key, and response body. -/
theorem prompt_forwarding_witness :
    ("k" : String) ≠ "" ∧
    (handleChatRequest "hi" true (some "k")
        (HttpOutcome.success 200 ⟨"resp", []⟩)).posted
      = [HostMsg.chatResponse "resp"] :=
  ⟨by decide, (prompt_forwarding "hi" "k" ⟨"resp", []⟩ (by decide)).2⟩

/-- C7: key gating of chat.  When the stored `qbraidChat.apiKey` value is
absent or empty, handling a `sendChat` message posts the key-not-found
error and issues no HTTP request. -/
theorem chat_key_gating (prompt : String) (storedKey : Option String)
    (o : HttpOutcome ChatResponseBody)
    (h : storedKey = none ∨ storedKey = some "") :
    handleChatRequest prompt true storedKey o
      = ⟨[], [HostMsg.error "API key not found. Please enter your API key."], []⟩ := by
  rcases h with h | h <;> subst h <;> simp [handleChatRequest]

/-- Witness for C7 at the absent key. -/
theorem chat_key_gating_witness :
    ((none : Option String) = none ∨ (none : Option String) = some "") ∧
    handleChatRequest "x" true none (HttpOutcome.failure none)
      = ⟨[], [HostMsg.error "API key not found. Please enter your API key."], []⟩ :=
  ⟨Or.inl rfl, chat_key_gating "x" none (HttpOutcome.failure none) (Or.inl rfl)⟩

/-- Counterexample to C8 as stated: when the GET throws with a present but
empty response body, the error message posted is the fallback text, not
the (empty) response body. -/
theorem validation_error_body_counterexample :
    (handleApiKeyValidation "abc" true (HttpOutcome.failure (some ""))).posted
      ≠ [HostMsg.error ""] ∧
    (handleApiKeyValidation "abc" true (HttpOutcome.failure (some ""))).posted
      = [HostMsg.error "Failed to validate API key"] := by
  constructor
  · intro h
    simp [handleApiKeyValidation, jsOrElse] at h
  · rfl

/-- C8 amended: when the GET to the models endpoint throws, the stored
`qbraidChat.apiKey` is left unchanged and the webview receives exactly one
error message whose text is the error response body when present and
non-empty (truthy), otherwise `Failed to validate API key`; the key is
persisted only after a status-200 response. -/
theorem validation_atomicity (apiKey : String) (errData : Option String) :
    (handleApiKeyValidation apiKey true (HttpOutcome.failure errData)).configWrites
      = [] ∧
    (∀ d, errData = some d → d ≠ "" →
      (handleApiKeyValidation apiKey true (HttpOutcome.failure errData)).posted
        = [HostMsg.error d]) ∧
    ((errData = none ∨ errData = some "") →
      (handleApiKeyValidation apiKey true (HttpOutcome.failure errData)).posted
        = [HostMsg.error "Failed to validate API key"]) ∧
    (∀ status data,
      (handleApiKeyValidation apiKey true
          (HttpOutcome.success status data)).configWrites ≠ [] → status = 200) ∧
    (∀ data,
      (handleApiKeyValidation apiKey true
          (HttpOutcome.success 200 data)).configWrites
        = [("qbraidChat.apiKey", apiKey)]) := by
  refine ⟨rfl, ?_, ?_, ?_, ?_⟩
  · intro d hd hne
    subst hd
    simp [handleApiKeyValidation, jsOrElse, hne]
  · intro h
    rcases h with h | h <;> subst h <;> simp [handleApiKeyValidation, jsOrElse]
  · intro status data h
    by_cases hs : status = 200
    · exact hs
    · exfalso
      simp [handleApiKeyValidation, hs] at h
  · intro data
    simp [handleApiKeyValidation]

/-- Witness for the amended C8 at a concrete non-empty error body. -/
theorem validation_atomicity_witness :
    (some "boom" : Option String) = some "boom" ∧ ("boom" : String) ≠ "" ∧
    (handleApiKeyValidation "k" true (HttpOutcome.failure (some "boom"))).posted
      = [HostMsg.error "boom"] :=
  ⟨rfl, by decide, (validation_atomicity "k" (some "boom")).2.1 "boom" rfl (by decide)⟩

/-- Every request `handleApiKeyValidation` can issue is the one GET to the
models endpoint. -/
theorem handleApiKeyValidation_requests_shape (apiKey : String)
    (panelPresent : Bool) (o : HttpOutcome (List ModelEntry)) :
    (handleApiKeyValidation apiKey panelPresent o).requests = [] ∨
    (handleApiKeyValidation apiKey panelPresent o).requests
      = [⟨"GET", modelsUrl, apiKey, none, none⟩] := by
  cases panelPresent with
  | false => left; rfl
  | true =>
    cases o with
    | success status data =>
      by_cases hs : status = 200
      · right; simp [handleApiKeyValidation, hs]
      · right; simp [handleApiKeyValidation, hs]
    | failure errData => right; simp [handleApiKeyValidation]

/-- Every request `handleChatRequest` can issue is the one POST to the
chat endpoint. -/
theorem handleChatRequest_requests_shape (prompt : String)
    (panelPresent : Bool) (storedKey : Option String)
    (o : HttpOutcome ChatResponseBody) :
    (handleChatRequest prompt panelPresent storedKey o).requests = [] ∨
    (handleChatRequest prompt panelPresent storedKey o).requests
      = [⟨"POST", chatUrl, storedKey.getD "", some "application/json",
          some prompt⟩] := by
  cases panelPresent with
  | false => left; rfl
  | true =>
    by_cases hkey : storedKey = none ∨ storedKey = some ""
    · left; simp [handleChatRequest, hkey]
    · cases o with
      | success status body =>
        by_cases hs : status = 200
        · right; simp [handleChatRequest, hkey, hs]
        · right; simp [handleChatRequest, hkey, hs]
      | failure errData => right; simp [handleChatRequest, hkey]

/-- `handleChatRequest` never writes configuration. -/
theorem handleChatRequest_configWrites_empty (prompt : String)
    (panelPresent : Bool) (storedKey : Option String)
    (o : HttpOutcome ChatResponseBody) :
    (handleChatRequest prompt panelPresent storedKey o).configWrites = [] := by
  cases panelPresent with
  | false => rfl
  | true =>
    by_cases hkey : storedKey = none ∨ storedKey = some ""
    · simp [handleChatRequest, hkey]
    · cases o with
      | success status body =>
        by_cases hs : status = 200
        · simp [handleChatRequest, hkey, hs]
        · simp [handleChatRequest, hkey, hs]
      | failure errData => simp [handleChatRequest, hkey]

/-- Every configuration write `handleApiKeyValidation` can make targets
the key `qbraidChat.apiKey`. -/
theorem handleApiKeyValidation_configWrites_shape (apiKey : String)
    (panelPresent : Bool) (o : HttpOutcome (List ModelEntry)) :
    (handleApiKeyValidation apiKey panelPresent o).configWrites = [] ∨
    (handleApiKeyValidation apiKey panelPresent o).configWrites
      = [("qbraidChat.apiKey", apiKey)] := by
  cases panelPresent with
  | false => left; rfl
  | true =>
    cases o with
    | success status data =>
      by_cases hs : status = 200
      · right; simp [handleApiKeyValidation, hs]
      · left; simp [handleApiKeyValidation, hs]
    | failure errData => left; simp [handleApiKeyValidation]

/-- C9: the model selected in the dropdown is never transmitted.  The
`sendChat` message `sendPrompt` posts is the same whatever the dropdown
holds and carries only the trimmed prompt, and every request the chat
handler issues carries the prompt as its whole body. -/
theorem model_never_transmitted (promptInput m1 m2 : String)
    (panelPresent : Bool) (storedKey : Option String)
    (o : HttpOutcome ChatResponseBody) :
    sendPrompt promptInput m1 = sendPrompt promptInput m2 ∧
    (∀ p, sendPrompt promptInput m1 = some (WebviewMsg.sendChat p) →
      p = jsTrim promptInput) ∧
    (∀ prompt : String,
      ∀ req ∈ (handleChatRequest prompt panelPresent storedKey o).requests,
        req.promptBody = some prompt ∧ req.method = "POST"
          ∧ req.url = chatUrl) := by
  refine ⟨rfl, ?_, ?_⟩
  · intro p hp
    rw [sendPrompt] at hp
    by_cases hempty : jsTrim promptInput = ""
    · rw [if_pos hempty] at hp
      exact Option.noConfusion hp
    · rw [if_neg hempty] at hp
      have := Option.some.inj hp
      exact (WebviewMsg.sendChat.inj this).symm
  · intro prompt req hreq
    rcases handleChatRequest_requests_shape prompt panelPresent storedKey o
      with h | h
    · rw [h] at hreq
      exact absurd hreq (List.not_mem_nil req)
    · rw [h] at hreq
      rw [List.mem_singleton] at hreq
      subst hreq
      exact ⟨rfl, rfl, rfl⟩

/-- Witness for C9 at a concrete prompt and two dropdown values. -/
theorem model_never_transmitted_witness :
    sendPrompt "hello" "gpt" = sendPrompt "hello" "claude" ∧
    (⟨"POST", chatUrl, "k", some "application/json", some "hello"⟩
        : HttpRequest).promptBody = some "hello" :=
  ⟨(model_never_transmitted "hello" "gpt" "claude" true (some "k")
      (HttpOutcome.failure none)).1,
   ((model_never_transmitted "hello" "gpt" "claude" true (some "k")
      (HttpOutcome.failure none)).2.2 "hello"
      ⟨"POST", chatUrl, "k", some "application/json", some "hello"⟩
      (by simp [handleChatRequest])).1⟩

/-- One round of the message loop: the message the webview posted, and the
outcome the HTTP layer would return the handler this round (the unused one
is irrelevant to the round's effects). -/
structure TraceStep where
  msg : WebviewMsg
  modelsOutcome : HttpOutcome (List ModelEntry)
  chatOutcome : HttpOutcome ChatResponseBody

/-- The `onDidReceiveMessage` callback registered in `createWebviewPanel`
(extension.js lines 46-61): it returns early when `currentPanel` is gone,
routes `validateApiKey` to `handleApiKeyValidation`, `sendChat` to
`handleChatRequest`, and ignores any other command. -/
def onDidReceiveMessage (panelPresent : Bool) (storedKey : Option String)
    (st : TraceStep) : Effects :=
  if !panelPresent then ⟨[], [], []⟩
  else
    match st.msg with
    | WebviewMsg.validateApiKey k => handleApiKeyValidation k true st.modelsOutcome
    | WebviewMsg.sendChat p => handleChatRequest p true storedKey st.chatOutcome
    | WebviewMsg.other _ => ⟨[], [], []⟩

/-- Effect of a list of configuration writes on the stored
`qbraidChat.apiKey` value: a write to that key replaces it, a write to any
other key leaves it alone. -/
def applyWrites (storedKey : Option String)
    (ws : List (String × String)) : Option String :=
  ws.foldl (fun acc w => if w.fst = "qbraidChat.apiKey" then some w.snd else acc)
    storedKey

/-- Run the message loop over a sequence of webview messages, threading
the stored key through the configuration writes of each round, and collect
the effects of every round. -/
def runTrace (storedKey : Option String) (panelPresent : Bool) :
    List TraceStep → List Effects
  | [] => []
  | st :: rest =>
    let eff := onDidReceiveMessage panelPresent storedKey st
    eff :: runTrace (applyWrites storedKey eff.configWrites) panelPresent rest

/-- Every request one round of the message loop issues goes to one of the
two endpoints. -/
theorem onDidReceiveMessage_requests_shape (panelPresent : Bool)
    (storedKey : Option String) (st : TraceStep) :
    ∀ req ∈ (onDidReceiveMessage panelPresent storedKey st).requests,
      (req.method = "GET" ∧ req.url = modelsUrl) ∨
      (req.method = "POST" ∧ req.url = chatUrl) := by
  intro req hreq
  cases panelPresent with
  | false => exact absurd hreq (List.not_mem_nil req)
  | true =>
    rw [onDidReceiveMessage] at hreq
    simp only [Bool.not_true, Bool.false_eq_true, if_false] at hreq
    cases hmsg : st.msg with
    | validateApiKey k =>
      rw [hmsg] at hreq
      rcases handleApiKeyValidation_requests_shape k true st.modelsOutcome
        with h | h
      · rw [h] at hreq
        exact absurd hreq (List.not_mem_nil req)
      · rw [h, List.mem_singleton] at hreq
        subst hreq
        exact Or.inl ⟨rfl, rfl⟩
    | sendChat p =>
      rw [hmsg] at hreq
      rcases handleChatRequest_requests_shape p true storedKey st.chatOutcome
        with h | h
      · rw [h] at hreq
        exact absurd hreq (List.not_mem_nil req)
      · rw [h, List.mem_singleton] at hreq
        subst hreq
        exact Or.inr ⟨rfl, rfl⟩
    | other c =>
      rw [hmsg] at hreq
      exact absurd hreq (List.not_mem_nil req)

/-- C5: two-endpoint restriction.  Over every sequence of webview
messages, every HTTP request the extension issues is either the GET to
`https://api.qbraid.com/api/chat/models` or the POST to
`https://api.qbraid.com/api/chat`. -/
theorem two_endpoint_restriction (storedKey : Option String)
    (panelPresent : Bool) (steps : List TraceStep) :
    ∀ eff ∈ runTrace storedKey panelPresent steps, ∀ req ∈ eff.requests,
      (req.method = "GET" ∧ req.url = modelsUrl) ∨
      (req.method = "POST" ∧ req.url = chatUrl) := by
  induction steps generalizing storedKey with
  | nil =>
    intro eff heff
    exact absurd heff (List.not_mem_nil eff)
  | cons st rest ih =>
    intro eff heff req hreq
    rw [runTrace, List.mem_cons] at heff
    rcases heff with h | h
    · subst h
      exact onDidReceiveMessage_requests_shape panelPresent storedKey st req hreq
    · exact ih _ eff h req hreq

/-- Witness for C5: in a one-message trace validating a key, the issued
request is the GET to the models endpoint. -/
theorem two_endpoint_restriction_witness :
    ((⟨"GET", modelsUrl, "k", none, none⟩ : HttpRequest).method = "GET" ∧
      (⟨"GET", modelsUrl, "k", none, none⟩ : HttpRequest).url = modelsUrl) ∨
    ((⟨"GET", modelsUrl, "k", none, none⟩ : HttpRequest).method = "POST" ∧
      (⟨"GET", modelsUrl, "k", none, none⟩ : HttpRequest).url = chatUrl) :=
  two_endpoint_restriction none true
    [⟨WebviewMsg.validateApiKey "k", HttpOutcome.success 200 [],
      HttpOutcome.failure none⟩]
    (onDidReceiveMessage true none
      ⟨WebviewMsg.validateApiKey "k", HttpOutcome.success 200 [],
        HttpOutcome.failure none⟩)
    (List.mem_singleton.mpr rfl)
    ⟨"GET", modelsUrl, "k", none, none⟩
    (List.mem_singleton.mpr rfl)

/-- C6: single persisted value.  Over every sequence of webview messages,
every configuration write the extension makes targets the one key
`qbraidChat.apiKey`, and the chat handler never writes configuration at
all (only the key-validation handler writes). -/
theorem single_persisted_value (storedKey : Option String)
    (panelPresent : Bool) (steps : List TraceStep) :
    (∀ eff ∈ runTrace storedKey panelPresent steps, ∀ w ∈ eff.configWrites,
      w.fst = "qbraidChat.apiKey") ∧
    (∀ (prompt : String) (panel : Bool) (key : Option String)
        (o : HttpOutcome ChatResponseBody),
      (handleChatRequest prompt panel key o).configWrites = []) := by
  constructor
  · induction steps generalizing storedKey with
    | nil =>
      intro eff heff
      exact absurd heff (List.not_mem_nil eff)
    | cons st rest ih =>
      intro eff heff w hw
      rw [runTrace, List.mem_cons] at heff
      rcases heff with h | h
      · subst h
        rw [onDidReceiveMessage] at hw
        cases panelPresent with
        | false => exact absurd hw (List.not_mem_nil w)
        | true =>
          simp only [Bool.not_true, Bool.false_eq_true, if_false] at hw
          cases hmsg : st.msg with
          | validateApiKey k =>
            rw [hmsg] at hw
            rcases handleApiKeyValidation_configWrites_shape k true
              st.modelsOutcome with hsh | hsh
            · rw [hsh] at hw
              exact absurd hw (List.not_mem_nil w)
            · rw [hsh, List.mem_singleton] at hw
              subst hw
              rfl
          | sendChat p =>
            rw [hmsg] at hw
            rw [handleChatRequest_configWrites_empty p true storedKey
              st.chatOutcome] at hw
            exact absurd hw (List.not_mem_nil w)
          | other c =>
            rw [hmsg] at hw
            exact absurd hw (List.not_mem_nil w)
      · exact ih _ eff h w hw
  · intro prompt panel key o
    exact handleChatRequest_configWrites_empty prompt panel key o

/-- Witness for C6: the one-message validation trace writes only
`qbraidChat.apiKey`, and a concrete chat round writes nothing. -/
theorem single_persisted_value_witness :
    ("qbraidChat.apiKey", "k").fst = "qbraidChat.apiKey" ∧
    (handleChatRequest "p" true (some "k")
        (HttpOutcome.failure none)).configWrites = [] :=
  ⟨(single_persisted_value none true
      [⟨WebviewMsg.validateApiKey "k", HttpOutcome.success 200 [],
        HttpOutcome.failure none⟩]).1
    (onDidReceiveMessage true none
      ⟨WebviewMsg.validateApiKey "k", HttpOutcome.success 200 [],
        HttpOutcome.failure none⟩)
    (List.mem_singleton.mpr rfl)
    ("qbraidChat.apiKey", "k")
    (List.mem_singleton.mpr rfl),
   (single_persisted_value none true []).2 "p" true (some "k")
    (HttpOutcome.failure none)⟩
